import Mathlib

/-!
Shallow embedding of `securedrop_export/disk/cli.py` (class `CLI`).

External command outcomes (subprocess results, pexpect match indices and
captured groups, filesystem existence checks) are supplied as explicit
"world" parameters; each embedded method returns its Python result
(`Except Status _` models raising `ExportException(sdstatus=...)`)
together with the list of external actions it performed, in order.
-/

namespace SDExport

/-- Python `f"...{x}..."` on an `Optional[str]`: `None` prints as `"None"`. -/
def pyStrOfOpt : Option String → String
  | some s => s
  | none => "None"

/-- Python truthiness of an `Optional[str]`: `None` and `""` are falsy. -/
def pyTruthyStr : Option String → Bool
  | some s => s ≠ ""
  | none => false

/-- The whitespace set of Python `str.strip()` and `str.split()`. -/
def isPyWs (c : Char) : Bool :=
  c = ' ' || c = '\t' || c = '\n' || c = '\r' || c = '\x0b' || c = '\x0c'

/-- Drop leading Python whitespace from a character list. -/
def pyStripL : List Char → List Char
  | [] => []
  | c :: cs => if isPyWs c then pyStripL cs else c :: cs

/-- Python `str.strip()` with no arguments. -/
def pyStrip (s : String) : String :=
  ⟨((pyStripL s.data).reverse |> pyStripL).reverse⟩

/-- Split a character list at every character satisfying `p`, keeping
empty groups (the behavior of Python `str.split(sep)` with an explicit
separator). -/
def pySplitPred (p : Char → Bool) : List Char → List (List Char)
  | [] => [[]]
  | c :: cs =>
    let r := pySplitPred p cs
    if p c then [] :: r
    else
      match r with
      | [] => [[c]]
      | g :: gs => (c :: g) :: gs

/-- Python `str.split("\n")`. -/
def pySplitNl (s : String) : List String :=
  (pySplitPred (fun c => c = '\n') s.data).map (fun l => String.mk l)

/-- Python `str.split()` with no arguments: split on whitespace runs,
discarding empty strings. -/
def pySplitWs (s : String) : List String :=
  ((pySplitPred isPyWs s.data).filter (fun t => t ≠ [])).map (fun l => String.mk l)

/-- Substring search on character lists. -/
def pyInL (n : List Char) : List Char → Bool
  | [] => n.isEmpty
  | c :: cs => n.isPrefixOf (c :: cs) || pyInL n cs

/-- Python `needle in haystack` on strings: substring containment. -/
def pyIn (needle haystack : String) : Bool :=
  pyInL needle.data haystack.data

/-- Python `str.removeprefix`. -/
def pyDropPre (p s : String) : String :=
  if p.data.isPrefixOf s.data then ⟨s.data.drop p.data.length⟩ else s

/-- Embedding of `os.path.join(a, b)` for the cases the code exercises. -/
def pyPathJoin (a b : String) : String :=
  if "/".data.isPrefixOf b.data then b
  else if a = "" then b
  else if a.data.getLast? = some '/' then a ++ b
  else a ++ "/" ++ b

/-- The `_DEV_PREFIX` constant in cli.py. -/
def DEV_PFX : String := "/dev/"

/-- The `_DEVMAPPER_PREFIX` constant in cli.py. -/
def DEVMAPPER_PFX : String := "/dev/mapper/"

/-- The `_UDISKS_PREFIX` constant in cli.py: the two header lines of `udisksctl status`. -/
def UDISKS_HEADER : String :=
  "MODEL                     REVISION  SERIAL               DEVICE\n--------------------------------------------------------------------------\n"

/-- The `EncryptionScheme` enum from volume.py (values used by cli.py). -/
inductive EncryptionScheme where
  | UNKNOWN
  | LUKS
  | VERACRYPT
  deriving DecidableEq, Repr

/-- The `Status` values used by cli.py (from status.py). -/
inductive Status where
  | NO_DEVICE_DETECTED
  | MULTI_DEVICE_DETECTED
  | INVALID_DEVICE_DETECTED
  | DEVICE_ERROR
  | ERROR_UNLOCK_GENERIC
  | ERROR_UNLOCK_LUKS
  | ERROR_MOUNT
  | ERROR_EXPORT
  | ERROR_UNMOUNT_VOLUME_BUSY
  | ERROR_EXPORT_CLEANUP
  | SUCCESS
  deriving DecidableEq, Repr

/-- The `Volume` record from volume.py: `device_name` and `encryption`. -/
structure Volume where
  device_name : String
  encryption : EncryptionScheme
  deriving DecidableEq, Repr

/-- The `MountedVolume` record from volume.py: a `Volume` plus `unlocked_name` and
`mountpoint`. -/
structure MountedVolume where
  device_name : String
  unlocked_name : String
  encryption : EncryptionScheme
  mountpoint : String
  deriving DecidableEq, Repr

/-- The `Union[Volume, MountedVolume]` return type of volume selection. -/
inductive ExportTarget where
  | vol (v : Volume)
  | mounted (mv : MountedVolume)
  deriving DecidableEq, Repr

/-- Encryption scheme of a selection result, whichever branch it is. -/
def ExportTarget.encryption : ExportTarget → EncryptionScheme
  | .vol v => v.encryption
  | .mounted mv => mv.encryption

/-- External actions performed by the embedded methods, in program order. -/
inductive Event where
  | cmdUdisksStatus
  | cmdLsblk
  | cmdInfo (dev : String)
  | sleepMs (ms : Nat)
  | cmdMount (dev : String)
  | cmdUnlockSpawn (dev : String)
  | sendPassphrase
  | cmdUnmount (dev : String)
  | cmdLock (dev : String)
  | cmdSync
  | cmdRm (dir : String)
  | cmdMkdir (path : String)
  | cmdCp (src : String) (dst : String)
  | callCleanup (is_error : Bool)
  deriving DecidableEq, Repr

/-- Holds exactly on `Event.cmdInfo _`. -/
def Event.isInfo : Event → Bool
  | .cmdInfo _ => true
  | _ => false

/-- Holds exactly on `Event.cmdLock _`. -/
def Event.isLock : Event → Bool
  | .cmdLock _ => true
  | _ => false

/-- Holds exactly on `Event.callCleanup _`. -/
def Event.isCallCleanup : Event → Bool
  | .callCleanup _ => true
  | _ => false

/-- Outcome of the first `child.expect(prompt)` in `unlock_volume`:
index 0 is the passphrase prompt, 1 is EOF, 2 is TIMEOUT. -/
inductive PromptExpect where
  | prompt
  | eof
  | timeout
  deriving DecidableEq, Repr

/-- Outcome of `child.expect(expected)` in `unlock_volume` after the key is
sent. The strings carried by the first two constructors are the stripped
captured group 1 (the `/dev/dm-X` name). -/
inductive UnlockExpect where
  | unlockedAs (dm : String)
  | alreadyUnlockedAs (dm : String)
  | incorrectPassphrase
  | eof
  | timeout
  deriving DecidableEq, Repr

/-- Outcome of one `child.expect(expected_info)` in `_mount_volume`'s
readiness poll: index 0 matches `PreferredDevice`, the rest do not. -/
inductive InfoExpect where
  | preferredDevice
  | errorLookingUp
  | eof
  | timeout
  deriving DecidableEq, Repr

/-- Outcome of `child.expect(expected_mount)` in `_mount_volume`; captured
groups are carried already stripped. -/
inductive MountExpect where
  | mounted (mp : String)
  | alreadyMounted (name : String) (mp : String)
  | errorLookingUp
  | eof
  | timeout
  deriving DecidableEq, Repr

/-- World for `_mount_volume`: the poll outcome of each info attempt
(indexed by attempt number) and the mount command outcome. -/
structure MountWorld where
  infoResults : Nat → InfoExpect
  mountResult : MountExpect

/-- World for `unlock_volume`: prompt outcome, unlock outcome, and the
world for the `_mount_volume` call made on success. -/
structure UnlockWorld where
  promptResult : PromptExpect
  unlockResult : UnlockExpect
  mountWorld : MountWorld

/-- The `for _ in range(max_retries)` readiness poll in `_mount_volume`:
spawn the info command; on a non-`PreferredDevice` match sleep 0.5s and
retry, on `PreferredDevice` break. Returns the trace of the loop.
`attempt` is the current attempt number, `fuel` the remaining iterations
(`max_retries = 3` at the top-level call). -/
def mountPoll (w : Nat → InfoExpect) (dev : String) : Nat → Nat → List Event
  | _, 0 => []
  | attempt, fuel + 1 =>
    match w attempt with
    | .preferredDevice => [Event.cmdInfo dev]
    | _ => Event.cmdInfo dev :: Event.sleepMs 500 :: mountPoll w dev (attempt + 1) fuel

/-- Embeds `CLI._mount_volume`: polls device info up to 3 times, then issues the
mount command; index 0 captures the fresh mountpoint, index 1 replaces
`full_unlocked_name` and the mountpoint with the values the command
reports, anything else leaves `mountpoint = None` and the method raises
`ERROR_MOUNT`. -/
def mount_volume (w : MountWorld) (volume : Volume) (full_unlocked_name : String) :
    Except Status MountedVolume × List Event :=
  let pollTrace := mountPoll w.infoResults volume.device_name 0 3
  let tr := pollTrace ++ [Event.cmdMount full_unlocked_name]
  let outcome : Option String × String :=
    match w.mountResult with
    | .mounted mp => (some mp, full_unlocked_name)
    | .alreadyMounted nm mp => (some mp, nm)
    | _ => (none, full_unlocked_name)
  if pyTruthyStr outcome.1 then
    (.ok ⟨volume.device_name, outcome.2, volume.encryption, outcome.1.getD ""⟩, tr)
  else
    (.error Status.ERROR_MOUNT, tr)

/-- Embeds `CLI.unlock_volume`: waits for the passphrase prompt (anything else
raises `ERROR_UNLOCK_GENERIC`), sends the key, then: fresh-unlock or
already-unlocked proceeds to `_mount_volume` with the captured mapper
name; incorrect passphrase raises `ERROR_UNLOCK_LUKS`; EOF or timeout
raises `ERROR_UNLOCK_GENERIC`. -/
def unlock_volume (w : UnlockWorld) (volume : Volume) (_encryption_key : String) :
    Except Status MountedVolume × List Event :=
  let tr0 := [Event.cmdUnlockSpawn volume.device_name]
  match w.promptResult with
  | .eof => (.error Status.ERROR_UNLOCK_GENERIC, tr0)
  | .timeout => (.error Status.ERROR_UNLOCK_GENERIC, tr0)
  | .prompt =>
    let tr1 := tr0 ++ [Event.sendPassphrase]
    match w.unlockResult with
    | .unlockedAs dm =>
      let rm := mount_volume w.mountWorld volume dm
      (rm.1, tr1 ++ rm.2)
    | .alreadyUnlockedAs dm =>
      let rm := mount_volume w.mountWorld volume dm
      (rm.1, tr1 ++ rm.2)
    | .incorrectPassphrase => (.error Status.ERROR_UNLOCK_LUKS, tr1)
    | .eof => (.error Status.ERROR_UNLOCK_GENERIC, tr1)
    | .timeout => (.error Status.ERROR_UNLOCK_GENERIC, tr1)

/-- One node of the parsed `lsblk --output NAME,RO,TYPE,MOUNTPOINT,FSTYPE
--json` tree. Each field models `device.get(key)` (absent key = `none`);
`children = none` models an absent `"children"` key. -/
inductive Dev : Type where
  | mk : (name : Option String) → (ro : Option Bool) → (type : Option String) →
      (mountpoint : Option String) → (fstype : Option String) →
      (children : Option (List Dev)) → Dev

/-- Accessor modelling `device.get("name")`. -/
def Dev.name : Dev → Option String
  | .mk n _ _ _ _ _ => n

/-- Accessor modelling `device.get("ro")`. -/
def Dev.ro : Dev → Option Bool
  | .mk _ r _ _ _ _ => r

/-- Accessor modelling `device.get("type")`. -/
def Dev.type : Dev → Option String
  | .mk _ _ t _ _ _ => t

/-- Accessor modelling `device.get("mountpoint")`. -/
def Dev.mountpoint : Dev → Option String
  | .mk _ _ _ m _ _ => m

/-- Accessor modelling `device.get("fstype")`. -/
def Dev.fstype : Dev → Option String
  | .mk _ _ _ _ f _ => f

/-- Accessor modelling `device.get("children")`. -/
def Dev.children : Dev → Option (List Dev)
  | .mk _ _ _ _ _ c => c

/-- World for `_is_it_veracrypt` and the `_mount_volume` call that
`_get_supported_volume` may make: the outcome of
`udisksctl info --block-device` (`.error ()` models a
`CalledProcessError`, `.ok s` its decoded stdout) plus a `MountWorld`. -/
structure VolWorld where
  infoResult : Except Unit String
  mountWorld : MountWorld

/-- Embeds `CLI._is_it_veracrypt`: issues the info command; a TCRYPT `IdType`
line means VERACRYPT, a LUKS one means LUKS, anything else (or a command
error, which is caught) means UNKNOWN. Never raises. -/
def is_it_veracrypt (infoResult : Except Unit String) (volume : Volume) :
    EncryptionScheme × List Event :=
  let tr := [Event.cmdInfo volume.device_name]
  match infoResult with
  | .ok info =>
    if pyIn "IdType:                     crypto_TCRYPT\n" info then
      (EncryptionScheme.VERACRYPT, tr)
    else if pyIn "IdType:                     crypto_LUKS\n" info then
      (EncryptionScheme.LUKS, tr)
    else
      (EncryptionScheme.UNKNOWN, tr)
  | .error _ => (EncryptionScheme.UNKNOWN, tr)

/-- Embeds `CLI._get_supported_volume`: classifies one lsblk node: `crypto_LUKS`
fstype means LUKS; with a single crypt child, an UNKNOWN scheme is
refined via `_is_it_veracrypt`, a mounted child is returned as a
`MountedVolume` as-is, an unmounted child is opportunistically mounted
only when the scheme is LUKS or VERACRYPT; otherwise the bare volume is
returned only when its scheme is LUKS or VERACRYPT. Only the
`_mount_volume` call can raise. -/
def get_supported_volume (w : VolWorld) (device : Dev) :
    Except Status (Option ExportTarget) × List Event :=
  let device_name := device.name
  let device_fstype := device.fstype
  let vol0 : Volume := ⟨DEV_PFX ++ pyStrOfOpt device_name, EncryptionScheme.UNKNOWN⟩
  let vol : Volume :=
    if device_fstype = some "crypto_LUKS" then
      { vol0 with encryption := EncryptionScheme.LUKS }
    else vol0
  match device.children with
  | some (c :: cs) =>
    if (c :: cs).length ≠ 1 then
      (.ok none, [])
    else if c.type ≠ some "crypt" then
      (.ok none, [])
    else
      let mapped_name := DEVMAPPER_PFX ++ pyStrOfOpt c.name
      let ve :=
        if vol.encryption = EncryptionScheme.UNKNOWN then
          is_it_veracrypt w.infoResult vol
        else (vol.encryption, [])
      let vol : Volume := { vol with encryption := ve.1 }
      let trInfo := ve.2
      if pyTruthyStr c.mountpoint then
        (.ok (some (.mounted
          ⟨vol.device_name, mapped_name, vol.encryption, pyStrOfOpt c.mountpoint⟩)), trInfo)
      else
        if vol.encryption = EncryptionScheme.LUKS ∨
            vol.encryption = EncryptionScheme.VERACRYPT then
          let rm := mount_volume w.mountWorld vol mapped_name
          match rm.1 with
          | .ok mv => (.ok (some (.mounted mv)), trInfo ++ rm.2)
          | .error s => (.error s, trInfo ++ rm.2)
        else
          -- falls through to the final encryption check; scheme is UNKNOWN here
          (.ok none, trInfo)
  | _ =>
    if vol.encryption = EncryptionScheme.LUKS ∨
        vol.encryption = EncryptionScheme.VERACRYPT then
      (.ok (some (.vol vol)), [])
    else
      (.ok none, [])

/-- The `targets` list as computed by `CLI.get_volume` from the decoded
`udisksctl status` output: strip the header, split into lines, and keep
the last whitespace-separated token of each non-blank line. -/
def parseTargets (out : String) : List String :=
  let usbs := pySplitNl (pyStrip (pyDropPre UDISKS_HEADER out))
  usbs.filterMap (fun i => (pySplitWs (pyStrip i)).getLast?)

/-- Result of the lsblk invocation plus JSON parse in `CLI.get_volume`:
a `CalledProcessError`, a `json.JSONDecodeError`, or the parsed value of
`lsblk_json.get("blockdevices")`. -/
inductive LsblkResult where
  | cmdError
  | jsonError
  | parsed (blockdevices : Option (List Dev))

/-- World for `CLI.get_volume`: the `udisksctl status` outcome, the lsblk
outcome, and the per-partition world handed to each
`_get_supported_volume` call. -/
structure GetVolumeWorld where
  udisksOutput : Except Unit String
  lsblkResult : LsblkResult
  volWorld : Dev → VolWorld

/-- The inner partition loop of `CLI.get_volume`: run
`_get_supported_volume` on each node, collecting non-`None` results;
an exception aborts the loop. -/
def collectParts (w : Dev → VolWorld) :
    List Dev → Except Status (List ExportTarget) × List Event
  | [] => (.ok [], [])
  | p :: ps =>
    let rp := get_supported_volume (w p) p
    match rp.1 with
    | .error s => (.error s, rp.2)
    | .ok none =>
      let rest := collectParts w ps
      (rest.1, rp.2 ++ rest.2)
    | .ok (some t) =>
      let rest := collectParts w ps
      match rest.1 with
      | .error s => (.error s, rp.2 ++ rest.2)
      | .ok l => (.ok (t :: l), rp.2 ++ rest.2)

/-- The device loop of `CLI.get_volume`: for every block device whose
name is in `targets` and whose `ro` field is `False`, inspect its
partitions (when a `children` key is present) or the device itself. -/
def collectVolumes (w : Dev → VolWorld) (targets : List String) :
    List Dev → Except Status (List ExportTarget) × List Event
  | [] => (.ok [], [])
  | d :: ds =>
    let matches_ : Bool :=
      (match d.name with
       | some n => targets.contains n
       | none => false) && (d.ro = some false)
    let rd :=
      if matches_ then
        match d.children with
        | some parts => collectParts w parts
        | none => collectParts w [d]
      else (.ok [], [])
    match rd.1 with
    | .error s => (.error s, rd.2)
    | .ok l =>
      let rest := collectVolumes w targets ds
      match rest.1 with
      | .error s => (.error s, rd.2 ++ rest.2)
      | .ok l2 => (.ok (l ++ l2), rd.2 ++ rest.2)

/-- Embeds `CLI.get_volume`: enumerates attached devices via `udisksctl status`
(a command failure is caught and re-raised as `DEVICE_ERROR`); zero
parsed targets raise `NO_DEVICE_DETECTED` and more than one raise
`MULTI_DEVICE_DETECTED`, in both cases before lsblk runs. Otherwise the
lsblk topology is parsed (command or JSON failure: `DEVICE_ERROR`; falsy
`blockdevices`: `DEVICE_ERROR`), candidate volumes are collected, and
exactly one must remain or `INVALID_DEVICE_DETECTED` is raised. -/
def get_volume (w : GetVolumeWorld) : Except Status ExportTarget × List Event :=
  let tr0 := [Event.cmdUdisksStatus]
  match w.udisksOutput with
  | .error _ => (.error Status.DEVICE_ERROR, tr0)
  | .ok out =>
    let targets := parseTargets out
    if targets.length = 0 then
      (.error Status.NO_DEVICE_DETECTED, tr0)
    else if targets.length > 1 then
      (.error Status.MULTI_DEVICE_DETECTED, tr0)
    else
      let tr1 := tr0 ++ [Event.cmdLsblk]
      match w.lsblkResult with
      | .cmdError => (.error Status.DEVICE_ERROR, tr1)
      | .jsonError => (.error Status.DEVICE_ERROR, tr1)
      | .parsed blockdevices =>
        match blockdevices with
        | none => (.error Status.DEVICE_ERROR, tr1)
        | some [] => (.error Status.DEVICE_ERROR, tr1)
        | some (d :: ds) =>
          let rc := collectVolumes w.volWorld targets (d :: ds)
          match rc.1 with
          | .error s => (.error s, tr1 ++ rc.2)
          | .ok volumes =>
            match volumes with
            | [t] => (.ok t, tr1 ++ rc.2)
            | _ => (.error Status.INVALID_DEVICE_DETECTED, tr1 ++ rc.2)

/-- World for `_close_volume`: the two `os.path.exists` checks and the
exit outcomes of the unmount and lock commands. -/
structure CloseWorld where
  mountpointExists : Bool
  unmountOk : Bool
  unlockedNameExists : Bool
  lockOk : Bool

/-- World for `cleanup`: outcomes of `sync` and `rm -rf`, plus the
`_close_volume` world. -/
structure CleanupWorld where
  syncOk : Bool
  rmOk : Bool
  closeWorld : CloseWorld

/-- World for `write_data_to_device`: outcomes of `mkdir` and `cp -r`,
plus the `cleanup` world. -/
structure WriteWorld where
  mkdirOk : Bool
  cpOk : Bool
  cleanupWorld : CleanupWorld

/-- Embeds `CLI._close_volume`: if the mountpoint exists, unmount
`mv.unlocked_name`; a failure raises `ERROR_UNMOUNT_VOLUME_BUSY`
immediately. Then, if the unlocked device node exists, lock
`mv.device_name`; a failure raises `ERROR_EXPORT_CLEANUP`. On success
returns `Volume(device_name=f"/dev/{mv.device_name}", ...)`. -/
def close_volume (w : CloseWorld) (mv : MountedVolume) :
    Except Status Volume × List Event :=
  let (unmountStep, tr1) :
      Except Status Unit × List Event :=
    if w.mountpointExists then
      if w.unmountOk then (.ok (), [Event.cmdUnmount mv.unlocked_name])
      else (.error Status.ERROR_UNMOUNT_VOLUME_BUSY, [Event.cmdUnmount mv.unlocked_name])
    else (.ok (), [])
  match unmountStep with
  | .error s => (.error s, tr1)
  | .ok _ =>
    let (lockStep, tr2) :
        Except Status Unit × List Event :=
      if w.unlockedNameExists then
        if w.lockOk then (.ok (), [Event.cmdLock mv.device_name])
        else (.error Status.ERROR_EXPORT_CLEANUP, [Event.cmdLock mv.device_name])
      else (.ok (), [])
    match lockStep with
    | .error s => (.error s, tr1 ++ tr2)
    | .ok _ =>
      (.ok ⟨DEV_PFX ++ mv.device_name, mv.encryption⟩, tr1 ++ tr2)

/-- Embeds `CLI._remove_temp_directory`: runs `rm -rf tmpdir`; a command failure
is re-raised as `ERROR_EXPORT_CLEANUP`. -/
def remove_temp_directory (rmOk : Bool) (tmpdir : String) :
    Except Status Unit × List Event :=
  if rmOk then (.ok (), [Event.cmdRm tmpdir])
  else (.error Status.ERROR_EXPORT_CLEANUP, [Event.cmdRm tmpdir])

/-- Embeds `CLI.cleanup`: computes `error_status` from `is_error`, then syncs
(only this `CalledProcessError` is caught by the method's `except`
clause and re-raised as `error_status`), removes the temporary
directory (its helper raises `ExportException(ERROR_EXPORT_CLEANUP)`,
which is not a `CalledProcessError` and so propagates unchanged), and,
when `should_close_volume`, closes the volume (whose own
`ExportException`s likewise propagate unchanged). -/
def cleanup (w : CleanupWorld) (volume : MountedVolume) (submission_tmpdir : String)
    (is_error : Bool := false) (should_close_volume : Bool := true) :
    Except Status Unit × List Event :=
  let error_status := if is_error then Status.ERROR_EXPORT else Status.ERROR_EXPORT_CLEANUP
  if ¬ w.syncOk then
    (.error error_status, [Event.cmdSync])
  else
    let (r1, tr1) := remove_temp_directory w.rmOk submission_tmpdir
    match r1 with
    | .error s => (.error s, Event.cmdSync :: tr1)
    | .ok _ =>
      if should_close_volume then
        let (r2, tr2) := close_volume w.closeWorld volume
        match r2 with
        | .error s => (.error s, Event.cmdSync :: tr1 ++ tr2)
        | .ok _ => (.ok (), Event.cmdSync :: tr1 ++ tr2)
      else
        (.ok (), Event.cmdSync :: tr1)

/-- Embeds `CLI.write_data_to_device`: makes the target directory and copies the
payload; a failure of either sets `is_error` and raises `ERROR_EXPORT`.
The `finally` block always calls `cleanup(device, submission_tmpdir,
is_error)` exactly once; per Python semantics an exception raised by
`cleanup` supersedes the in-flight one. -/
def write_data_to_device (w : WriteWorld) (device : MountedVolume)
    (submission_tmpdir : String) (submission_target_dirname : String) :
    Except Status Unit × List Event :=
  let target_path := pyPathJoin device.mountpoint submission_target_dirname
  let export_data := pyPathJoin submission_tmpdir "export_data/"
  let tryStep : Option Status × Bool × List Event :=
    if ¬ w.mkdirOk then
      (some Status.ERROR_EXPORT, true, [Event.cmdMkdir target_path])
    else if ¬ w.cpOk then
      (some Status.ERROR_EXPORT, true,
        [Event.cmdMkdir target_path, Event.cmdCp export_data target_path])
    else
      (none, false, [Event.cmdMkdir target_path, Event.cmdCp export_data target_path])
  let is_error := tryStep.2.1
  let rcl := cleanup w.cleanupWorld device submission_tmpdir is_error
  let tr := tryStep.2.2 ++ Event.callCleanup is_error :: rcl.2
  match rcl.1 with
  | .error s => (.error s, tr)
  | .ok _ =>
    match tryStep.1 with
    | some s => (.error s, tr)
    | none => (.ok (), tr)

/-- A deterministic device-state scenario for the unlock/mount protocol
(spec section 6 external interfaces): a device that unlocks under mapper
name `mapperName` and mounts at `mountAt`, with flags recording whether
it is currently unlocked and mounted. -/
structure DevSim where
  mapperName : String
  mountAt : String
  unlocked : Bool
  mounted : Bool

/-- The `UnlockWorld` presented by a device in state `s`: the unlock
prompt appears; the unlock command reports fresh or already-unlocked
according to `s.unlocked`; info recognizes the device at once; the mount
command reports fresh or already-mounted according to `s.mounted`. -/
def simUnlockWorld (s : DevSim) : UnlockWorld :=
  ⟨PromptExpect.prompt,
   if s.unlocked then UnlockExpect.alreadyUnlockedAs s.mapperName
   else UnlockExpect.unlockedAs s.mapperName,
   ⟨fun _ => InfoExpect.preferredDevice,
    if s.mounted then MountExpect.alreadyMounted s.mapperName s.mountAt
    else MountExpect.mounted s.mountAt⟩⟩

/-- State transition of a successful `unlock_volume` run: the device ends
up unlocked and mounted. -/
def simStep (s : DevSim) : DevSim :=
  { s with unlocked := true, mounted := true }

/-- Predicate used in claim statements: `hasMountedCryptChild d` holds when `d` has exactly one child, of
crypt type, with a truthy mountpoint: the shape on which
`_get_supported_volume` returns the child as a `MountedVolume` without
checking the encryption scheme. -/
def hasMountedCryptChild (d : Dev) : Bool :=
  match d.children with
  | some [c] => c.type = some "crypt" && pyTruthyStr c.mountpoint
  | _ => false

theorem mount_volume_res (w : MountWorld) (v : Volume) (nm : String) :
    (mount_volume w v nm).1 =
      match w.mountResult with
      | .mounted mp =>
        if mp = "" then .error Status.ERROR_MOUNT
        else .ok ⟨v.device_name, nm, v.encryption, mp⟩
      | .alreadyMounted nm2 mp =>
        if mp = "" then .error Status.ERROR_MOUNT
        else .ok ⟨v.device_name, nm2, v.encryption, mp⟩
      | _ => .error Status.ERROR_MOUNT := by
  rcases hr : w.mountResult with mp | ⟨nm2, mp⟩ | _ | _ | _
  · by_cases hmp : mp = "" <;> simp [mount_volume, hr, pyTruthyStr, hmp]
  · by_cases hmp : mp = "" <;> simp [mount_volume, hr, pyTruthyStr, hmp]
  all_goals simp [mount_volume, hr, pyTruthyStr]

theorem mount_volume_trace (w : MountWorld) (v : Volume) (nm : String) :
    (mount_volume w v nm).2 =
      mountPoll w.infoResults v.device_name 0 3 ++ [Event.cmdMount nm] := by
  rcases hr : w.mountResult with mp | ⟨nm2, mp⟩ | _ | _ | _ <;>
    simp [mount_volume, hr] <;> split <;> rfl

theorem mount_volume_encryption (w : MountWorld) (v : Volume) (nm : String)
    (mv : MountedVolume) (h : (mount_volume w v nm).1 = .ok mv) :
    mv.encryption = v.encryption := by
  rw [mount_volume_res] at h
  rcases hr : w.mountResult with mp | ⟨nm2, mp⟩ | _ | _ | _ <;> rw [hr] at h
  · by_cases hmp : mp = "" <;> simp [hmp] at h <;> simp [← h]
  · by_cases hmp : mp = "" <;> simp [hmp] at h <;> simp [← h]
  all_goals simp at h

theorem mount_volume_device_name (w : MountWorld) (v : Volume) (nm : String)
    (mv : MountedVolume) (h : (mount_volume w v nm).1 = .ok mv) :
    mv.device_name = v.device_name := by
  rw [mount_volume_res] at h
  rcases hr : w.mountResult with mp | ⟨nm2, mp⟩ | _ | _ | _ <;> rw [hr] at h
  · by_cases hmp : mp = "" <;> simp [hmp] at h <;> simp [← h]
  · by_cases hmp : mp = "" <;> simp [hmp] at h <;> simp [← h]
  all_goals simp at h

theorem mountPoll_info_le (w : Nat → InfoExpect) (dev : String) :
    ∀ fuel attempt, (mountPoll w dev attempt fuel).countP Event.isInfo ≤ fuel := by
  intro fuel
  induction fuel with
  | zero => intro attempt; simp [mountPoll]
  | succ n ih =>
    intro attempt
    rcases h : w attempt with _ | _ | _ | _ <;>
      simp [mountPoll, h, List.countP_cons, Event.isInfo]
    all_goals exact ih (attempt + 1)

theorem mountPoll_sleep_500 (w : Nat → InfoExpect) (dev : String) :
    ∀ fuel attempt ms, Event.sleepMs ms ∈ mountPoll w dev attempt fuel → ms = 500 := by
  intro fuel
  induction fuel with
  | zero => intro attempt ms h; simp [mountPoll] at h
  | succ n ih =>
    intro attempt ms h
    rcases hw : w attempt with _ | _ | _ | _ <;> simp [mountPoll, hw] at h
    all_goals rcases h with h | h
    all_goals first
      | exact h
      | exact ih (attempt + 1) ms h

/-- C4: in `unlock_volume`, not receiving the passphrase prompt (EOF or
timeout) raises `ERROR_UNLOCK_GENERIC`; after the key is sent, an
incorrect-passphrase match raises `ERROR_UNLOCK_LUKS` (and never
`ERROR_UNLOCK_GENERIC`), while any outcome other than freshly-unlocked,
already-unlocked or incorrect-passphrase (EOF, timeout) raises
`ERROR_UNLOCK_GENERIC`. -/
theorem unlock_volume_status (w : UnlockWorld) (v : Volume) (key : String) :
    (w.promptResult ≠ PromptExpect.prompt →
      (unlock_volume w v key).1 = .error Status.ERROR_UNLOCK_GENERIC) ∧
    (w.promptResult = PromptExpect.prompt →
      (w.unlockResult = UnlockExpect.incorrectPassphrase →
        (unlock_volume w v key).1 = .error Status.ERROR_UNLOCK_LUKS ∧
        (unlock_volume w v key).1 ≠ .error Status.ERROR_UNLOCK_GENERIC) ∧
      ((w.unlockResult = UnlockExpect.eof ∨ w.unlockResult = UnlockExpect.timeout) →
        (unlock_volume w v key).1 = .error Status.ERROR_UNLOCK_GENERIC)) := by
  obtain ⟨p, u, mw⟩ := w
  cases p <;> cases u <;> simp [unlock_volume]

/-- Witness for C4: a concrete incorrect-passphrase run reports
`ERROR_UNLOCK_LUKS`. -/
theorem unlock_volume_status_witness :
    (unlock_volume
      ⟨PromptExpect.prompt, UnlockExpect.incorrectPassphrase,
        ⟨fun _ => InfoExpect.preferredDevice, MountExpect.eof⟩⟩
      ⟨"/dev/sda1", EncryptionScheme.LUKS⟩ "correct horse").1 =
      .error Status.ERROR_UNLOCK_LUKS :=
  (((unlock_volume_status _ _ _).2 rfl).1 rfl).1

/-- C9: `get_volume` raises `NO_DEVICE_DETECTED` when zero attached-device
identifiers are parsed and `MULTI_DEVICE_DETECTED` when more than one
are; in both cases the whole trace is the single device-enumeration
command, so the topology query and volume inspection never ran. -/
theorem get_volume_device_count (w : GetVolumeWorld) (out : String)
    (hout : w.udisksOutput = .ok out) :
    ((parseTargets out).length = 0 →
      get_volume w = (.error Status.NO_DEVICE_DETECTED, [Event.cmdUdisksStatus])) ∧
    ((parseTargets out).length > 1 →
      get_volume w = (.error Status.MULTI_DEVICE_DETECTED, [Event.cmdUdisksStatus])) := by
  constructor
  · intro h
    simp [get_volume, hout, h]
  · intro h
    have h0 : ¬ (parseTargets out).length = 0 := by omega
    simp [get_volume, hout, h0, h]

/-- Witness for C9: an empty device table yields `NO_DEVICE_DETECTED` and
a two-device table yields `MULTI_DEVICE_DETECTED`, both without running
lsblk. -/
theorem get_volume_device_count_witness :
    get_volume ⟨.ok "", .cmdError,
        fun _ => ⟨.error (), ⟨fun _ => InfoExpect.preferredDevice, MountExpect.eof⟩⟩⟩ =
      (.error Status.NO_DEVICE_DETECTED, [Event.cmdUdisksStatus]) ∧
    get_volume ⟨.ok "Key 1.0 123 /dev/sda\nDisk 2.0 456 /dev/sdb", .cmdError,
        fun _ => ⟨.error (), ⟨fun _ => InfoExpect.preferredDevice, MountExpect.eof⟩⟩⟩ =
      (.error Status.MULTI_DEVICE_DETECTED, [Event.cmdUdisksStatus]) :=
  ⟨(get_volume_device_count _ "" rfl).1 (by decide),
   (get_volume_device_count _ "Key 1.0 123 /dev/sda\nDisk 2.0 456 /dev/sdb" rfl).2
     (by decide)⟩

/-- C1 counterexample: a run in which the unmount command fails. Teardown
reports `ERROR_UNMOUNT_VOLUME_BUSY` and its trace contains no lock
command, refuting the claim that the lock step is attempted regardless of
the unmount outcome. -/
theorem cleanup_busy_skips_lock_cex :
    (cleanup ⟨true, true, ⟨true, false, true, true⟩⟩
        ⟨"/dev/sda1", "/dev/dm-0", EncryptionScheme.LUKS, "/media/usb/sdexp"⟩
        "/tmp/sdexp" false true).1 = .error Status.ERROR_UNMOUNT_VOLUME_BUSY ∧
    (cleanup ⟨true, true, ⟨true, false, true, true⟩⟩
        ⟨"/dev/sda1", "/dev/dm-0", EncryptionScheme.LUKS, "/media/usb/sdexp"⟩
        "/tmp/sdexp" false true).2.countP Event.isLock = 0 := by
  constructor <;> rfl

/-- C1 amended: with `should_close_volume` true (and sync and removal
succeeding, so the close step is reached), an unmount failure raises
`ERROR_UNMOUNT_VOLUME_BUSY` immediately and the lock command is NOT
attempted; the lock command is attempted exactly when the unmount step
completes without raising and the unlocked mapper node exists. -/
theorem cleanup_lock_iff_unmount_ok (w : CleanupWorld) (mv : MountedVolume)
    (tmpdir : String) (ie : Bool) (hs : w.syncOk = true) (hr : w.rmOk = true) :
    (w.closeWorld.mountpointExists = true → w.closeWorld.unmountOk = false →
      (cleanup w mv tmpdir ie true).1 = .error Status.ERROR_UNMOUNT_VOLUME_BUSY ∧
      (cleanup w mv tmpdir ie true).2.countP Event.isLock = 0) ∧
    ((w.closeWorld.mountpointExists = false ∨ w.closeWorld.unmountOk = true) →
      (cleanup w mv tmpdir ie true).2.countP Event.isLock =
        (if w.closeWorld.unlockedNameExists then 1 else 0)) := by
  obtain ⟨s, r, mp, um, un, lk⟩ := w
  simp only at hs hr
  subst hs hr
  cases mp <;> cases um <;> cases un <;> cases lk <;>
    simp [cleanup, close_volume, remove_temp_directory, Event.isLock,
      List.countP_cons, List.countP_nil]

/-- Witness for C1 amended: a fully successful teardown attempts the lock
command exactly once. -/
theorem cleanup_lock_iff_unmount_ok_witness :
    (cleanup ⟨true, true, ⟨true, true, true, true⟩⟩
        ⟨"/dev/sda1", "/dev/dm-0", EncryptionScheme.LUKS, "/media/usb/sdexp"⟩
        "/tmp/sdexp" false true).2.countP Event.isLock = 1 := by
  have h := (cleanup_lock_iff_unmount_ok ⟨true, true, ⟨true, true, true, true⟩⟩
    ⟨"/dev/sda1", "/dev/dm-0", EncryptionScheme.LUKS, "/media/usb/sdexp"⟩
    "/tmp/sdexp" false rfl rfl).2 (Or.inr rfl)
  simpa using h

/-- C2 counterexample: with `is_error` already true, a failure of the
temporary-directory removal step reports `ERROR_EXPORT_CLEANUP`, not the
original `ERROR_EXPORT`, refuting the claim. -/
theorem cleanup_rm_fail_status_cex :
    (cleanup ⟨true, false, ⟨true, true, true, true⟩⟩
        ⟨"/dev/sda1", "/dev/dm-0", EncryptionScheme.LUKS, "/media/usb/sdexp"⟩
        "/tmp/sdexp" true true).1 = .error Status.ERROR_EXPORT_CLEANUP := by
  rfl

/-- C2 amended: a sync failure is re-raised as `ERROR_EXPORT` when
`is_error` is true and as `ERROR_EXPORT_CLEANUP` when it is false, but a
removal failure raises `ERROR_EXPORT_CLEANUP` regardless of `is_error`
(the helper's own `ExportException` bypasses the `error_status`
translation, which only catches the sync `CalledProcessError`). -/
theorem cleanup_failure_status (w : CleanupWorld) (mv : MountedVolume)
    (tmpdir : String) (scv : Bool) :
    (w.syncOk = false →
      (cleanup w mv tmpdir true scv).1 = .error Status.ERROR_EXPORT ∧
      (cleanup w mv tmpdir false scv).1 = .error Status.ERROR_EXPORT_CLEANUP) ∧
    (w.syncOk = true → w.rmOk = false → ∀ ie : Bool,
      (cleanup w mv tmpdir ie scv).1 = .error Status.ERROR_EXPORT_CLEANUP) := by
  obtain ⟨s, r, cw⟩ := w
  cases s <;> cases r <;>
    simp [cleanup, remove_temp_directory]

/-- Witness for C2 amended: concrete sync-failure runs with `is_error`
true and false, and a removal-failure run with `is_error` true. -/
theorem cleanup_failure_status_witness :
    (cleanup ⟨false, true, ⟨true, true, true, true⟩⟩
        ⟨"/dev/sda1", "/dev/dm-0", EncryptionScheme.LUKS, "/media/usb/sdexp"⟩
        "/tmp/sdexp" true true).1 = .error Status.ERROR_EXPORT ∧
    (cleanup ⟨false, true, ⟨true, true, true, true⟩⟩
        ⟨"/dev/sda1", "/dev/dm-0", EncryptionScheme.LUKS, "/media/usb/sdexp"⟩
        "/tmp/sdexp" false true).1 = .error Status.ERROR_EXPORT_CLEANUP ∧
    (cleanup ⟨true, false, ⟨true, true, true, true⟩⟩
        ⟨"/dev/sda1", "/dev/dm-0", EncryptionScheme.LUKS, "/media/usb/sdexp"⟩
        "/tmp/sdexp" false true).1 = .error Status.ERROR_EXPORT_CLEANUP :=
  ⟨((cleanup_failure_status ⟨false, true, ⟨true, true, true, true⟩⟩ _ _ _).1 rfl).1,
   ((cleanup_failure_status ⟨false, true, ⟨true, true, true, true⟩⟩ _ _ _).1 rfl).2,
   (cleanup_failure_status ⟨true, false, ⟨true, true, true, true⟩⟩ _ _ _).2 rfl rfl false⟩

/-- C5: a partition whose fstype is `crypto_LUKS` is always classified
LUKS (never VERACRYPT) by volume selection; `_is_it_veracrypt` maps a
failed device-info command to `UNKNOWN` without raising; and when the
device-info query fails on a non-`crypto_LUKS` partition,
`_get_supported_volume` still returns normally instead of raising. -/
theorem luks_never_veracrypt (d : Dev) (w : VolWorld) (v : Volume) :
    (d.fstype = some "crypto_LUKS" → ∀ t : ExportTarget,
      (get_supported_volume w d).1 = .ok (some t) →
        t.encryption = EncryptionScheme.LUKS) ∧
    (is_it_veracrypt (.error ()) v =
      (EncryptionScheme.UNKNOWN, [Event.cmdInfo v.device_name])) ∧
    (d.fstype ≠ some "crypto_LUKS" → w.infoResult = .error () →
      ∃ r, (get_supported_volume w d).1 = .ok r) := by
  refine ⟨?_, by simp [is_it_veracrypt], ?_⟩
  · intro hf t ht
    rcases hc : d.children with _ | (_ | ⟨c, _ | ⟨c2, cs⟩⟩)
    · simp [get_supported_volume, hc, hf] at ht
      simp [← ht, ExportTarget.encryption]
    · simp [get_supported_volume, hc, hf] at ht
      simp [← ht, ExportTarget.encryption]
    · by_cases hct : c.type = some "crypt"
      · by_cases hmp : pyTruthyStr c.mountpoint
        · simp [get_supported_volume, hc, hf, hct, hmp] at ht
          simp [← ht, ExportTarget.encryption]
        · simp [get_supported_volume, hc, hf, hct, hmp] at ht
          split at ht
          · rename_i mv heq
            simp at ht
            have henc := mount_volume_encryption _ _ _ _ heq
            simp [← ht, ExportTarget.encryption, henc]
          · simp at ht
      · simp [get_supported_volume, hc, hf, hct] at ht
    · simp [get_supported_volume, hc, hf] at ht
  · intro hf hinfo
    rcases hc : d.children with _ | (_ | ⟨c, _ | ⟨c2, cs⟩⟩)
    · exact ⟨none, by simp [get_supported_volume, hc, hf]⟩
    · exact ⟨none, by simp [get_supported_volume, hc, hf]⟩
    · by_cases hct : c.type = some "crypt"
      · by_cases hmp : pyTruthyStr c.mountpoint
        · exact ⟨some (.mounted ⟨DEV_PFX ++ pyStrOfOpt d.name,
            DEVMAPPER_PFX ++ pyStrOfOpt c.name, EncryptionScheme.UNKNOWN,
            pyStrOfOpt c.mountpoint⟩),
            by simp [get_supported_volume, hc, hf, hct, hmp, hinfo, is_it_veracrypt]⟩
        · exact ⟨none,
            by simp [get_supported_volume, hc, hf, hct, hmp, hinfo, is_it_veracrypt]⟩
      · exact ⟨none, by simp [get_supported_volume, hc, hf, hct]⟩
    · exact ⟨none, by simp [get_supported_volume, hc, hf]⟩

/-- Witness for C5: a `crypto_LUKS` partition is classified LUKS, and a
concrete failed info query returns `UNKNOWN` without raising. -/
theorem luks_never_veracrypt_witness :
    ExportTarget.encryption
      (.vol ⟨"/dev/sda1", EncryptionScheme.LUKS⟩) = EncryptionScheme.LUKS ∧
    is_it_veracrypt (.error ()) ⟨"/dev/sda1", EncryptionScheme.UNKNOWN⟩ =
      (EncryptionScheme.UNKNOWN, [Event.cmdInfo "/dev/sda1"]) :=
  ⟨(luks_never_veracrypt
      (Dev.mk (some "sda1") (some false) (some "part") none (some "crypto_LUKS") none)
      ⟨.error (), ⟨fun _ => InfoExpect.preferredDevice, MountExpect.eof⟩⟩
      ⟨"/dev/sda1", EncryptionScheme.UNKNOWN⟩).1 rfl
      (.vol ⟨"/dev/sda1", EncryptionScheme.LUKS⟩) (by rfl),
   (luks_never_veracrypt
      (Dev.mk (some "sda1") (some false) (some "part") none (some "crypto_LUKS") none)
      ⟨.error (), ⟨fun _ => InfoExpect.preferredDevice, MountExpect.eof⟩⟩
      ⟨"/dev/sda1", EncryptionScheme.UNKNOWN⟩).2.1⟩

/-- C6: against a device simulation, `unlock_volume` on a locked device
and then again on the resulting already-unlocked, already-mounted state
returns the same `MountedVolume` both times: the second call goes
through the already-unlocked branch and reuses the existing mapper name
and mountpoint, with no new mount. -/
theorem unlock_idempotent (s : DevSim) (v : Volume) (key : String)
    (hmp : s.mountAt ≠ "") :
    (unlock_volume (simUnlockWorld s) v key).1 =
      .ok ⟨v.device_name, s.mapperName, v.encryption, s.mountAt⟩ ∧
    (unlock_volume (simUnlockWorld (simStep s)) v key).1 =
      .ok ⟨v.device_name, s.mapperName, v.encryption, s.mountAt⟩ ∧
    (simUnlockWorld (simStep s)).unlockResult =
      UnlockExpect.alreadyUnlockedAs s.mapperName := by
  refine ⟨?_, ?_, by simp [simUnlockWorld, simStep]⟩
  · cases hu : s.unlocked <;> cases hm : s.mounted <;>
      simp [unlock_volume, simUnlockWorld, mount_volume, hu, hm, pyTruthyStr, hmp]
  · simp [unlock_volume, simUnlockWorld, simStep, mount_volume, pyTruthyStr, hmp]

/-- Witness for C6: the second unlock of a concrete device returns the
mountpoint of the first. -/
theorem unlock_idempotent_witness :
    (unlock_volume (simUnlockWorld (simStep ⟨"/dev/dm-0", "/media/usb/vol", false, false⟩))
      ⟨"/dev/sda1", EncryptionScheme.LUKS⟩ "pw").1 =
      .ok ⟨"/dev/sda1", "/dev/dm-0", EncryptionScheme.LUKS, "/media/usb/vol"⟩ :=
  (unlock_idempotent ⟨"/dev/dm-0", "/media/usb/vol", false, false⟩
    ⟨"/dev/sda1", EncryptionScheme.LUKS⟩ "pw" (by decide)).2.1

theorem cleanup_no_callCleanup (w : CleanupWorld) (mv : MountedVolume)
    (tmpdir : String) (ie scv : Bool) :
    (cleanup w mv tmpdir ie scv).2.countP Event.isCallCleanup = 0 := by
  obtain ⟨s, r, mp, um, un, lk⟩ := w
  cases s <;> cases r <;> cases mp <;> cases um <;> cases un <;> cases lk <;> cases scv <;>
    simp [cleanup, close_volume, remove_temp_directory, Event.isCallCleanup,
      List.countP_cons, List.countP_nil]

theorem write_data_trace (w : WriteWorld) (device : MountedVolume)
    (submission_tmpdir submission_target_dirname : String) :
    (write_data_to_device w device submission_tmpdir submission_target_dirname).2 =
      (if w.mkdirOk then
        [Event.cmdMkdir (pyPathJoin device.mountpoint submission_target_dirname),
         Event.cmdCp (pyPathJoin submission_tmpdir "export_data/")
           (pyPathJoin device.mountpoint submission_target_dirname)]
       else [Event.cmdMkdir (pyPathJoin device.mountpoint submission_target_dirname)]) ++
      Event.callCleanup (!(w.mkdirOk && w.cpOk)) ::
      (cleanup w.cleanupWorld device submission_tmpdir (!(w.mkdirOk && w.cpOk))).2 := by
  cases hm : w.mkdirOk <;> cases hc : w.cpOk
  · rcases hcl : (cleanup w.cleanupWorld device submission_tmpdir true).1 with s | u <;>
      simp [write_data_to_device, hm, hc, hcl]
  · rcases hcl : (cleanup w.cleanupWorld device submission_tmpdir true).1 with s | u <;>
      simp [write_data_to_device, hm, hc, hcl]
  · rcases hcl : (cleanup w.cleanupWorld device submission_tmpdir true).1 with s | u <;>
      simp [write_data_to_device, hm, hc, hcl]
  · rcases hcl : (cleanup w.cleanupWorld device submission_tmpdir false).1 with s | u <;>
      simp [write_data_to_device, hm, hc, hcl]

/-- C7: `write_data_to_device` calls `cleanup` exactly once on every
path, passing `is_error` true exactly when the mkdir/copy step failed;
when that step failed, the reported status is `ERROR_EXPORT` both when
cleanup returns normally and when cleanup fails at the sync step (the
original export error is preserved). -/
theorem write_data_cleanup_once (w : WriteWorld) (device : MountedVolume)
    (submission_tmpdir submission_target_dirname : String) :
    ((write_data_to_device w device submission_tmpdir
        submission_target_dirname).2.countP Event.isCallCleanup = 1) ∧
    (Event.callCleanup (!(w.mkdirOk && w.cpOk)) ∈
      (write_data_to_device w device submission_tmpdir submission_target_dirname).2) ∧
    ((w.mkdirOk && w.cpOk) = false →
      ((cleanup w.cleanupWorld device submission_tmpdir
          (!(w.mkdirOk && w.cpOk))).1 = .ok () →
        (write_data_to_device w device submission_tmpdir
          submission_target_dirname).1 = .error Status.ERROR_EXPORT) ∧
      (w.cleanupWorld.syncOk = false →
        (write_data_to_device w device submission_tmpdir
          submission_target_dirname).1 = .error Status.ERROR_EXPORT)) := by
  refine ⟨?_, ?_, ?_⟩
  · rw [write_data_trace]
    cases w.mkdirOk <;>
      simp [List.countP_append, List.countP_cons, Event.isCallCleanup,
        cleanup_no_callCleanup]
  · rw [write_data_trace]
    simp
  · intro hfail
    refine ⟨fun hok => ?_, fun hsync => ?_⟩
    · cases hm : w.mkdirOk <;> cases hc : w.cpOk <;>
        simp_all [write_data_to_device]
    · cases hm : w.mkdirOk <;> cases hc : w.cpOk <;>
        simp_all [write_data_to_device, cleanup]

/-- Witness for C7: a concrete failed-copy run with an otherwise healthy
cleanup reports `ERROR_EXPORT`. -/
theorem write_data_cleanup_once_witness :
    (write_data_to_device ⟨true, false, ⟨true, true, ⟨true, true, true, true⟩⟩⟩
      ⟨"/dev/sda1", "/dev/dm-0", EncryptionScheme.LUKS, "/media/usb/vol"⟩
      "/tmp/sdexp" "export-dir").1 = .error Status.ERROR_EXPORT :=
  ((write_data_cleanup_once ⟨true, false, ⟨true, true, ⟨true, true, true, true⟩⟩⟩
     ⟨"/dev/sda1", "/dev/dm-0", EncryptionScheme.LUKS, "/media/usb/vol"⟩
     "/tmp/sdexp" "export-dir").2.2 rfl).1 (by rfl)

/-- C8: in `_mount_volume` the readiness poll issues at most 3 info
attempts, every pause between attempts is 0.5 seconds; a fresh mount
yields a `MountedVolume` carrying the reported mountpoint, an
already-mounted match replaces both the unlocked name and the mountpoint
with what the command reports, and every other outcome (not ready, EOF,
timeout) captures no mountpoint and raises `ERROR_MOUNT`. -/
theorem mount_volume_behavior (w : MountWorld) (v : Volume) (nm : String) :
    ((mount_volume w v nm).2.countP Event.isInfo ≤ 3) ∧
    (∀ ms, Event.sleepMs ms ∈ (mount_volume w v nm).2 → ms = 500) ∧
    (∀ mp, w.mountResult = .mounted mp → mp ≠ "" →
      (mount_volume w v nm).1 = .ok ⟨v.device_name, nm, v.encryption, mp⟩) ∧
    (∀ nm2 mp, w.mountResult = .alreadyMounted nm2 mp → mp ≠ "" →
      (mount_volume w v nm).1 = .ok ⟨v.device_name, nm2, v.encryption, mp⟩) ∧
    ((w.mountResult = .errorLookingUp ∨ w.mountResult = .eof ∨
        w.mountResult = .timeout) →
      (mount_volume w v nm).1 = .error Status.ERROR_MOUNT) := by
  refine ⟨?_, ?_, ?_, ?_, ?_⟩
  · rw [mount_volume_trace]
    simp [List.countP_append, List.countP_cons, Event.isInfo]
    exact mountPoll_info_le w.infoResults v.device_name 3 0
  · intro ms hms
    rw [mount_volume_trace] at hms
    simp at hms
    exact mountPoll_sleep_500 w.infoResults v.device_name 3 0 ms hms
  · intro mp hr hmp
    rw [mount_volume_res, hr]
    simp [hmp]
  · intro nm2 mp hr hmp
    rw [mount_volume_res, hr]
    simp [hmp]
  · intro hr
    rcases hr with h | h | h <;> rw [mount_volume_res, h]

/-- Witness for C8: a concrete fresh mount captures the reported
mountpoint even when the readiness poll never succeeded. -/
theorem mount_volume_behavior_witness :
    (mount_volume ⟨fun _ => InfoExpect.errorLookingUp, MountExpect.mounted "/media/usb/vol"⟩
      ⟨"/dev/sda1", EncryptionScheme.LUKS⟩ "/dev/dm-0").1 =
      .ok ⟨"/dev/sda1", "/dev/dm-0", EncryptionScheme.LUKS, "/media/usb/vol"⟩ :=
  (mount_volume_behavior _ _ _).2.2.1 "/media/usb/vol" rfl (by decide)

/-- C3 counterexample: a device whose single crypt child is already
mounted but whose encryption scheme could not be identified (no
`crypto_LUKS` fstype, failing info query) is returned by volume
selection as a `MountedVolume` with scheme `UNKNOWN`, refuting the claim
that selection never returns a volume outside LUKS and VERACRYPT. -/
theorem mounted_unknown_child_cex :
    (get_supported_volume
      ⟨.error (), ⟨fun _ => InfoExpect.preferredDevice, MountExpect.eof⟩⟩
      (Dev.mk (some "sda1") (some false) (some "part") none none
        (some [Dev.mk (some "luks-x") none (some "crypt")
          (some "/media/usb/vol") none none]))).1 =
      .ok (some (.mounted
        ⟨"/dev/sda1", "/dev/mapper/luks-x", EncryptionScheme.UNKNOWN,
          "/media/usb/vol"⟩)) := by
  rfl

/-- C3 amended: a bare `Volume` returned by selection always has scheme
LUKS or VERACRYPT, and so does a returned `MountedVolume` unless the
device's single crypt child was already mounted, in which case the
mounted child is returned as-is even with scheme `UNKNOWN`; and when
candidate collection yields no eligible volume, `get_volume` raises
`INVALID_DEVICE_DETECTED`. -/
theorem selection_encryption (d : Dev) (w : VolWorld) :
    (∀ v : Volume, (get_supported_volume w d).1 = .ok (some (.vol v)) →
      v.encryption = EncryptionScheme.LUKS ∨
        v.encryption = EncryptionScheme.VERACRYPT) ∧
    (∀ mv : MountedVolume,
      (get_supported_volume w d).1 = .ok (some (.mounted mv)) →
      hasMountedCryptChild d = false →
      mv.encryption = EncryptionScheme.LUKS ∨
        mv.encryption = EncryptionScheme.VERACRYPT) ∧
    (∀ (gw : GetVolumeWorld) (out : String) (d0 : Dev) (ds : List Dev),
      gw.udisksOutput = .ok out →
      (parseTargets out).length = 1 →
      gw.lsblkResult = .parsed (some (d0 :: ds)) →
      (collectVolumes gw.volWorld (parseTargets out) (d0 :: ds)).1 = .ok [] →
      (get_volume gw).1 = .error Status.INVALID_DEVICE_DETECTED) := by
  refine ⟨?_, ?_, ?_⟩
  · intro v hv
    rcases hc : d.children with _ | (_ | ⟨c, _ | ⟨c2, cs⟩⟩)
    · by_cases hf : d.fstype = some "crypto_LUKS" <;>
        simp [get_supported_volume, hc, hf] at hv
      subst hv
      simp
    · by_cases hf : d.fstype = some "crypto_LUKS" <;>
        simp [get_supported_volume, hc, hf] at hv
      subst hv
      simp
    · simp [get_supported_volume, hc] at hv
      repeat' (split at hv)
      all_goals simp_all
    · simp [get_supported_volume, hc] at hv
  · intro mv hmv hnomc
    rcases hc : d.children with _ | (_ | ⟨c, _ | ⟨c2, cs⟩⟩)
    · by_cases hf : d.fstype = some "crypto_LUKS" <;>
        simp [get_supported_volume, hc, hf] at hmv
    · by_cases hf : d.fstype = some "crypto_LUKS" <;>
        simp [get_supported_volume, hc, hf] at hmv
    · by_cases hct : c.type = some "crypt"
      · by_cases hmp : pyTruthyStr c.mountpoint = true
        · simp [hasMountedCryptChild, hc, hct, hmp] at hnomc
        · by_cases hf : d.fstype = some "crypto_LUKS"
          · simp [get_supported_volume, hc, hct, hmp, hf] at hmv
            split at hmv
            · rename_i mv0 heq
              simp at hmv
              have he := mount_volume_encryption _ _ _ _ heq
              rw [← hmv, he]
              simp
            · simp at hmv
          · rcases he : (is_it_veracrypt w.infoResult
                ⟨DEV_PFX ++ pyStrOfOpt d.name, EncryptionScheme.UNKNOWN⟩).1
              with _ | _ | _
            · simp [get_supported_volume, hc, hct, hmp, hf, he] at hmv
            · simp [get_supported_volume, hc, hct, hmp, hf, he] at hmv
              split at hmv
              · rename_i mv0 heq
                simp at hmv
                have hen := mount_volume_encryption _ _ _ _ heq
                rw [← hmv, hen]
                simp
              · simp at hmv
            · simp [get_supported_volume, hc, hct, hmp, hf, he] at hmv
              split at hmv
              · rename_i mv0 heq
                simp at hmv
                have hen := mount_volume_encryption _ _ _ _ heq
                rw [← hmv, hen]
                simp
              · simp at hmv
      · simp [get_supported_volume, hc, hct] at hmv
    · simp [get_supported_volume, hc] at hmv
  · intro gw out d0 ds hout hlen hls hcoll
    have h0 : ¬ (parseTargets out).length = 0 := by omega
    have h1 : ¬ (parseTargets out).length > 1 := by omega
    simp [get_volume, hout, h0, h1, hls, hcoll]

/-- Witness for C3 amended: a locked `crypto_LUKS` whole device is
selected with scheme LUKS, and an empty candidate collection yields
`INVALID_DEVICE_DETECTED`. -/
theorem selection_encryption_witness :
    (EncryptionScheme.LUKS = EncryptionScheme.LUKS ∨
      EncryptionScheme.LUKS = EncryptionScheme.VERACRYPT) ∧
    (get_volume ⟨.ok "Key 1.0 123 /dev/sda", .parsed (some [Dev.mk (some "sdz")
        (some false) (some "disk") none none none]),
      fun _ => ⟨.error (), ⟨fun _ => InfoExpect.preferredDevice, MountExpect.eof⟩⟩⟩).1 =
      .error Status.INVALID_DEVICE_DETECTED :=
  ⟨(selection_encryption
      (Dev.mk (some "sda") (some false) (some "disk") none (some "crypto_LUKS") none)
      ⟨.error (), ⟨fun _ => InfoExpect.preferredDevice, MountExpect.eof⟩⟩).1
      ⟨"/dev/sda", EncryptionScheme.LUKS⟩ (by rfl),
   (selection_encryption
      (Dev.mk (some "sda") (some false) (some "disk") none (some "crypto_LUKS") none)
      ⟨.error (), ⟨fun _ => InfoExpect.preferredDevice, MountExpect.eof⟩⟩).2.2
      ⟨.ok "Key 1.0 123 /dev/sda", .parsed (some [Dev.mk (some "sdz")
        (some false) (some "disk") none none none]),
        fun _ => ⟨.error (), ⟨fun _ => InfoExpect.preferredDevice, MountExpect.eof⟩⟩⟩
      "Key 1.0 123 /dev/sda" _ [] rfl (by rfl) rfl (by rfl)⟩

theorem dev_pfx_ne (s : String) : DEV_PFX ++ s ≠ s := by
  intro h
  have hl := congrArg String.length h
  rw [String.length_append] at hl
  have h5 : DEV_PFX.length = 5 := by decide
  rw [h5] at hl
  omega

/-- C10: every `MountedVolume` produced by volume selection has a
device_name beginning with "/dev/", and when `_close_volume` completes
without error on a `MountedVolume` it returns a bare `Volume` with the
same encryption scheme whose device_name is "/dev/" prepended to the
mounted volume's device_name — hence never equal to it. -/
theorem close_volume_path (w : VolWorld) (d : Dev) (w2 : CloseWorld)
    (mv : MountedVolume) (v : Volume) :
    ((get_supported_volume w d).1 = .ok (some (.mounted mv)) →
      ∃ rest, mv.device_name = DEV_PFX ++ rest) ∧
    ((close_volume w2 mv).1 = .ok v →
      v.encryption = mv.encryption ∧
      v.device_name = DEV_PFX ++ mv.device_name ∧
      v.device_name ≠ mv.device_name) := by
  constructor
  · intro hmv
    rcases hc : d.children with _ | (_ | ⟨c, _ | ⟨c2, cs⟩⟩)
    · by_cases hf : d.fstype = some "crypto_LUKS" <;>
        simp [get_supported_volume, hc, hf] at hmv
    · by_cases hf : d.fstype = some "crypto_LUKS" <;>
        simp [get_supported_volume, hc, hf] at hmv
    · by_cases hct : c.type = some "crypt"
      · by_cases hf : d.fstype = some "crypto_LUKS"
        · by_cases hmp : pyTruthyStr c.mountpoint = true
          · simp [get_supported_volume, hc, hct, hf, hmp] at hmv
            exact ⟨pyStrOfOpt d.name, by rw [← hmv]⟩
          · simp [get_supported_volume, hc, hct, hf, hmp] at hmv
            split at hmv
            · rename_i mv0 heq
              simp at hmv
              exact ⟨pyStrOfOpt d.name,
                by rw [← hmv]; exact mount_volume_device_name _ _ _ _ heq⟩
            · simp at hmv
        · by_cases hmp : pyTruthyStr c.mountpoint = true
          · simp [get_supported_volume, hc, hct, hf, hmp] at hmv
            exact ⟨pyStrOfOpt d.name, by rw [← hmv]⟩
          · rcases he : (is_it_veracrypt w.infoResult
                ⟨DEV_PFX ++ pyStrOfOpt d.name, EncryptionScheme.UNKNOWN⟩).1
              with _ | _ | _
            · simp [get_supported_volume, hc, hct, hf, hmp, he] at hmv
            · simp [get_supported_volume, hc, hct, hf, hmp, he] at hmv
              split at hmv
              · rename_i mv0 heq
                simp at hmv
                exact ⟨pyStrOfOpt d.name,
                  by rw [← hmv]; exact mount_volume_device_name _ _ _ _ heq⟩
              · simp at hmv
            · simp [get_supported_volume, hc, hct, hf, hmp, he] at hmv
              split at hmv
              · rename_i mv0 heq
                simp at hmv
                exact ⟨pyStrOfOpt d.name,
                  by rw [← hmv]; exact mount_volume_device_name _ _ _ _ heq⟩
              · simp at hmv
      · simp [get_supported_volume, hc, hct] at hmv
    · simp [get_supported_volume, hc] at hmv
  · intro hcl
    obtain ⟨mp, um, un, lk⟩ := w2
    cases mp <;> cases um <;> cases un <;> cases lk <;>
      simp [close_volume] at hcl
    all_goals
      refine ⟨by rw [← hcl], by rw [← hcl], ?_⟩
    all_goals
      rw [← hcl]
      exact dev_pfx_ne mv.device_name

/-- Witness for C10: closing a concrete mounted volume at `/dev/sda1`
yields a bare volume at `/dev//dev/sda1`, which differs from the
original device path. -/
theorem close_volume_path_witness :
    (Volume.mk "/dev//dev/sda1" EncryptionScheme.LUKS).encryption =
      (MountedVolume.mk "/dev/sda1" "/dev/dm-0" EncryptionScheme.LUKS
        "/media/usb/vol").encryption ∧
    (Volume.mk "/dev//dev/sda1" EncryptionScheme.LUKS).device_name =
      DEV_PFX ++ "/dev/sda1" ∧
    (Volume.mk "/dev//dev/sda1" EncryptionScheme.LUKS).device_name ≠ "/dev/sda1" :=
  (close_volume_path
    ⟨.error (), ⟨fun _ => InfoExpect.preferredDevice, MountExpect.eof⟩⟩
    (Dev.mk none none none none none none) ⟨true, true, true, true⟩
    ⟨"/dev/sda1", "/dev/dm-0", EncryptionScheme.LUKS, "/media/usb/vol"⟩
    ⟨"/dev//dev/sda1", EncryptionScheme.LUKS⟩).2 (by rfl)

end SDExport
